import Mathlib

/-!
Verification development for the Criminal Cases Dashboard (`app.py`).

A pandas `DataFrame` is embedded as a list of column names together with a
list of rows; a row is an association list from column name to `Value`.
A missing entry in a row plays the role of pandas `NaN`, as does the
explicit `Value.null`.  All definitions in the "source" sections below are
translated from `app.py`; definitions in the "specification" sections state
the properties claimed of them.
-/

inductive Value where
  | str (s : String)
  | nat (n : Nat)
  | boolV (b : Bool)
  | date (y m d : Nat)
  | null
deriving DecidableEq, Repr

abbrev Row := List (String × Value)

structure DataFrame where
  cols : List String
  rows : List Row
deriving DecidableEq, Repr

/-- Cell access: the value of column `c` in row `r`; `null` (pandas `NaN`)
when the row has no entry for `c`. -/
def getVal (r : Row) (c : String) : Value :=
  match r.find? (fun p => decide (p.1 = c)) with
  | some p => p.2
  | none => Value.null

/-- Column assignment for a single row (pandas cell update). -/
def setCol (r : Row) (c : String) (v : Value) : Row :=
  (c, v) :: r.filter (fun p => decide (¬ p.1 = c))

/-- Column assignment on a whole frame (pandas `df[c] = vals`). -/
def addCol (d : DataFrame) (c : String) (vals : List Value) : DataFrame :=
  { cols := if c ∈ d.cols then d.cols else d.cols ++ [c],
    rows := List.zipWith (fun r v => setCol r c v) d.rows vals }

/-- Python `str(value)`, as produced by `astype(str)`; `NaN` prints as
`"nan"`. -/
def valToString : Value → String
  | Value.str s => s
  | Value.nat n => toString n
  | Value.boolV b => if b then "True" else "False"
  | Value.date y m d => toString y ++ "-" ++ toString m ++ "-" ++ toString d
  | Value.null => "nan"

/-- Python truthiness of a cell value (`if val:`). -/
def truthy : Value → Bool
  | Value.str s => decide (¬ s = "")
  | Value.nat n => decide (¬ n = 0)
  | Value.boolV b => b
  | Value.date _ _ _ => true
  | Value.null => false

/-- The dropdown-option filter `if val and str(val) != 'nan'`. -/
def valOk (v : Value) : Bool :=
  truthy v && decide (¬ valToString v = "nan")

/-- First-occurrence de-duplication, accumulator form (pandas
`Series.unique` keeps the first occurrence of each value). -/
def uniqueFirstAux [DecidableEq α] (seen : List α) : List α → List α
  | [] => []
  | x :: xs =>
    if x ∈ seen then uniqueFirstAux seen xs
    else x :: uniqueFirstAux (x :: seen) xs

def uniqueFirst [DecidableEq α] (l : List α) : List α := uniqueFirstAux [] l

/-- Stable insertion for `sortBy`: `x` is placed before the first element
`y` with `le x y`. -/
def insertBy (le : α → α → Bool) (x : α) : List α → List α
  | [] => [x]
  | y :: ys => if le x y then x :: y :: ys else y :: insertBy le x ys

/-- Stable sort used to model the deterministic orderings of pandas
(`value_counts` descending order, sorted group keys). -/
def sortBy (le : α → α → Bool) : List α → List α
  | [] => []
  | x :: xs => insertBy le x (sortBy le xs)

/-- A fixed total order on cell values, used for sorted group keys
(pandas `groupby(..., sort=True)`). -/
def Value.rank : Value → Nat
  | Value.null => 0
  | Value.boolV _ => 1
  | Value.nat _ => 2
  | Value.date _ _ _ => 3
  | Value.str _ => 4

/-- Lexicographic order on character lists, by code point. -/
def charListLe : List Char → List Char → Bool
  | [], _ => true
  | _ :: _, [] => false
  | a :: as, b :: bs => if a = b then charListLe as bs else decide (a.toNat < b.toNat)

def strLe (a b : String) : Bool := charListLe a.data b.data

def valueLe (a b : Value) : Bool :=
  match a, b with
  | Value.boolV x, Value.boolV y => !x || y
  | Value.nat x, Value.nat y => decide (x ≤ y)
  | Value.str x, Value.str y => strLe x y
  | Value.date y1 m1 d1, Value.date y2 m2 d2 =>
    decide (y1 < y2 ∨ (y1 = y2 ∧ (m1 < m2 ∨ (m1 = m2 ∧ d1 ≤ d2))))
  | a, b => decide (a.rank ≤ b.rank)

def pairLe (a b : Value × Value) : Bool :=
  if a.1 = b.1 then valueLe a.2 b.2 else valueLe a.1 b.1

/-! ### Data loading (`load_data`, `create_sample_data` in `app.py`) -/

/-- BOM removal from a column name
(`df.columns.str.replace('﻿', '')`). -/
def stripBomName (s : String) : String :=
  String.mk (s.data.filter (fun c => decide (¬ c = '﻿')))

def strip_bom (d : DataFrame) : DataFrame :=
  { cols := d.cols.map stripBomName,
    rows := d.rows.map (fun r => r.map (fun p => (stripBomName p.1, p.2))) }

/-- Date parsing for `pd.to_datetime` on a `"YYYY-MM-DD"` string. -/
def parseDate (s : String) : Option (Nat × Nat × Nat) :=
  match s.splitOn "-" with
  | [y, m, d] =>
    match y.toNat?, m.toNat?, d.toNat? with
    | some yn, some mn, some dn => some (yn, mn, dn)
    | _, _, _ => none
  | _ => none

def to_datetime_val : Value → Option Value
  | Value.null => some Value.null
  | Value.date y m d => some (Value.date y m d)
  | Value.str s => (parseDate s).map (fun t => Value.date t.1 t.2.1 t.2.2)
  | _ => none

/-- `df[c] = pd.to_datetime(df[c])` inside its own `try`: if any value of
the column fails to convert, the exception is caught and the column is
left unchanged. -/
def convert_date (d : DataFrame) (c : String) : DataFrame :=
  if c ∈ d.cols then
    if (d.rows.map (fun r => to_datetime_val (getVal r c))).all Option.isSome then
      { d with rows := d.rows.map (fun r =>
          setCol r c ((to_datetime_val (getVal r c)).getD Value.null)) }
    else d
  else d

def isSpaceChar (c : Char) : Bool :=
  decide (c = ' ') || decide (c = '\t') || decide (c = '\n') || decide (c = '\r')

/-- Python `str.strip()`: leading and trailing whitespace removed. -/
def pyStrip (s : String) : String :=
  String.mk (((s.data.dropWhile isSpaceChar).reverse.dropWhile isSpaceChar).reverse)

def text_columns : List String :=
  ["Gender", "Race_Tier_1", "Lead_Agency", "ChargeOffenseDescription",
   "Lead_Officer", "Statute_Description", "Statute"]

/-- `df[col] = df[col].astype(str).str.strip()` for one column, guarded by
`col in df.columns`. -/
def clean_col (d : DataFrame) (c : String) : DataFrame :=
  if c ∈ d.cols then
    { d with rows := d.rows.map (fun r =>
        setCol r c (Value.str (pyStrip (valToString (getVal r c))))) }
  else d

def clean_text_cols (d : DataFrame) : DataFrame := text_columns.foldl clean_col d

/-- `df[c] = df[c].fillna('Unknown')`, guarded by `c in df.columns`. -/
def fillna_col (d : DataFrame) (c : String) : DataFrame :=
  if c ∈ d.cols then
    { d with rows := d.rows.map (fun r =>
        if getVal r c = Value.null then setCol r c (Value.str "Unknown") else r) }
  else d

/-- Per-row value of
`df.groupby('Lead_Officer')['CaseNumber'].transform('count')`:
the number of rows of the same officer with a non-null case number;
`null` for a null officer (`groupby` drops null keys). -/
def officer_count_vals (d : DataFrame) : List Value :=
  d.rows.map (fun r =>
    match getVal r "Lead_Officer" with
    | Value.null => Value.null
    | v => Value.nat (((d.rows.filter (fun q => decide (getVal q "Lead_Officer" = v))).filter
        (fun q => decide (¬ getVal q "CaseNumber" = Value.null))).length))

/-- The `Officer_Case_Count` derivation in `load_data`.  It is guarded by
`'Lead_Officer' in df.columns`, but when `Lead_Officer` exists and
`CaseNumber` does not, `df.groupby('Lead_Officer')['CaseNumber']` raises a
`KeyError`, which escapes to the outer `except` of `load_data`. -/
def add_officer_count (d : DataFrame) : Except Unit DataFrame :=
  if "Lead_Officer" ∈ d.cols then
    if "CaseNumber" ∈ d.cols then
      Except.ok (addCol d "Officer_Case_Count" (officer_count_vals d))
    else Except.error ()
  else Except.ok d

/-- One window of the search performed by
`df['Statute'].str.contains('790.07')`.  The pattern is used as a regular
expression, so the `.` matches any character except a newline. -/
def matches79007At : List Char → Bool
  | c0 :: c1 :: c2 :: c3 :: c4 :: c5 :: _ =>
    decide (c0 = '7' ∧ c1 = '9' ∧ c2 = '0' ∧ ¬ c3 = '\n' ∧ c4 = '0' ∧ c5 = '7')
  | _ => false

def regexContains79007 : List Char → Bool
  | [] => false
  | c :: cs => matches79007At (c :: cs) || regexContains79007 cs

/-- `str.contains('790.07', na=False)` on one cell: regex search for
string values, `false` for anything else (`na=False`). -/
def str_contains_790_07 : Value → Bool
  | Value.str s => regexContains79007 s.data
  | _ => false

def statute_flag_vals (d : DataFrame) : List Value :=
  d.rows.map (fun r => Value.boolV (str_contains_790_07 (getVal r "Statute")))

/-- The `Is_790_07` derivation, guarded by `'Statute' in df.columns`. -/
def add_statute_flag (d : DataFrame) : DataFrame :=
  if "Statute" ∈ d.cols then addCol d "Is_790_07" (statute_flag_vals d) else d

/-- The raw dictionary of `create_sample_data`. -/
def sample_base : DataFrame :=
  { cols := ["CaseNumber", "ChargeOffenseDescription", "Statute_Description",
             "Statute", "Statute_CaseType", "Gender", "Race_Tier_1", "FileDate",
             "Age_At_Offense", "Lead_Agency", "Lead_Officer", "City_Clean",
             "Arrest_vs_NonArrest", "YearMonth", "OffenseWeekday"],
    rows :=
      [[("CaseNumber", Value.str "SAMPLE001"),
        ("ChargeOffenseDescription", Value.str "POSSESSION OF FIREARM BY CONVICTED FELON"),
        ("Statute_Description", Value.str "Firearm Violations"),
        ("Statute", Value.str "790.23"),
        ("Statute_CaseType", Value.str "Felony"),
        ("Gender", Value.str "M"),
        ("Race_Tier_1", Value.str "B"),
        ("FileDate", Value.date 2024 1 1),
        ("Age_At_Offense", Value.nat 25),
        ("Lead_Agency", Value.str "ORLANDO POLICE DEPARTMENT"),
        ("Lead_Officer", Value.str "SMITH JOHN"),
        ("City_Clean", Value.str "Orlando"),
        ("Arrest_vs_NonArrest", Value.str "Arrest"),
        ("YearMonth", Value.str "2024-01"),
        ("OffenseWeekday", Value.str "Monday")],
       [("CaseNumber", Value.str "SAMPLE002"),
        ("ChargeOffenseDescription", Value.str "BATTERY ON LAW ENFORCEMENT OFFICER"),
        ("Statute_Description", Value.str "Battery"),
        ("Statute", Value.str "784.07"),
        ("Statute_CaseType", Value.str "Misdemeanor"),
        ("Gender", Value.str "F"),
        ("Race_Tier_1", Value.str "W"),
        ("FileDate", Value.date 2024 1 2),
        ("Age_At_Offense", Value.nat 30),
        ("Lead_Agency", Value.str "ORANGE COUNTY SHERIFF"),
        ("Lead_Officer", Value.str "JONES MARY"),
        ("City_Clean", Value.str "Orlando"),
        ("Arrest_vs_NonArrest", Value.str "Non-Arrest"),
        ("YearMonth", Value.str "2024-01"),
        ("OffenseWeekday", Value.str "Tuesday")],
       [("CaseNumber", Value.str "SAMPLE003"),
        ("ChargeOffenseDescription", Value.str "DRIVING UNDER THE INFLUENCE"),
        ("Statute_Description", Value.str "DUI"),
        ("Statute", Value.str "316.193"),
        ("Statute_CaseType", Value.str "Misdemeanor"),
        ("Gender", Value.str "M"),
        ("Race_Tier_1", Value.str "H"),
        ("FileDate", Value.date 2024 1 3),
        ("Age_At_Offense", Value.nat 35),
        ("Lead_Agency", Value.str "ORLANDO POLICE DEPARTMENT"),
        ("Lead_Officer", Value.str "BROWN DAVID"),
        ("City_Clean", Value.str "Tampa"),
        ("Arrest_vs_NonArrest", Value.str "Arrest"),
        ("YearMonth", Value.str "2024-01"),
        ("OffenseWeekday", Value.str "Wednesday")],
       [("CaseNumber", Value.str "SAMPLE004"),
        ("ChargeOffenseDescription", Value.str "POSSESSION OF CONTROLLED SUBSTANCE"),
        ("Statute_Description", Value.str "Drug Possession"),
        ("Statute", Value.str "893.13"),
        ("Statute_CaseType", Value.str "Felony"),
        ("Gender", Value.str "F"),
        ("Race_Tier_1", Value.str "B"),
        ("FileDate", Value.date 2024 1 4),
        ("Age_At_Offense", Value.nat 28),
        ("Lead_Agency", Value.str "ORANGE COUNTY SHERIFF"),
        ("Lead_Officer", Value.str "DAVIS SUSAN"),
        ("City_Clean", Value.str "Orlando"),
        ("Arrest_vs_NonArrest", Value.str "Arrest"),
        ("YearMonth", Value.str "2024-01"),
        ("OffenseWeekday", Value.str "Thursday")],
       [("CaseNumber", Value.str "SAMPLE005"),
        ("ChargeOffenseDescription", Value.str "THEFT OF MOTOR VEHICLE"),
        ("Statute_Description", Value.str "Theft"),
        ("Statute", Value.str "812.014"),
        ("Statute_CaseType", Value.str "Felony"),
        ("Gender", Value.str "M"),
        ("Race_Tier_1", Value.str "W"),
        ("FileDate", Value.date 2024 1 5),
        ("Age_At_Offense", Value.nat 42),
        ("Lead_Agency", Value.str "OCOEE POLICE DEPARTMENT"),
        ("Lead_Officer", Value.str "WILSON MIKE"),
        ("City_Clean", Value.str "Ocoee"),
        ("Arrest_vs_NonArrest", Value.str "Non-Arrest"),
        ("YearMonth", Value.str "2024-01"),
        ("OffenseWeekday", Value.str "Friday")]] }

/-- `create_sample_data`: the base dictionary plus the two derived
columns, computed exactly as in the source. -/
def create_sample_data : DataFrame :=
  let d := addCol sample_base "Officer_Case_Count" (officer_count_vals sample_base)
  addCol d "Is_790_07" (statute_flag_vals d)

/-- The outcome of the CSV read attempted by `load_data`:
the file may be missing, `pd.read_csv` may raise, or a frame is obtained. -/
inductive CsvLoad where
  | missing
  | failure
  | loaded (d : DataFrame)

/-- The tail of `load_data` after the officer-count derivation: an escaped
exception lands in the `except` clause and yields the sample data,
otherwise the statute flag is derived and the frame returned. -/
def finish_load : Except Unit DataFrame → DataFrame
  | Except.error _ => create_sample_data
  | Except.ok d8 => add_statute_flag d8

/-- `load_data`: every failure path (missing file, read error, empty file,
or an exception escaping from a derivation) returns the sample data. -/
def load_data (input : CsvLoad) : DataFrame :=
  match input with
  | CsvLoad.missing => create_sample_data
  | CsvLoad.failure => create_sample_data
  | CsvLoad.loaded d0 =>
    if d0.rows.length = 0 then create_sample_data
    else
      let d1 := strip_bom d0
      let d2 := convert_date d1 "FileDate"
      let d3 := convert_date d2 "OffenseDate"
      let d4 := clean_text_cols d3
      let d5 := fillna_col d4 "City_Clean"
      let d6 := fillna_col d5 "Lead_Agency"
      let d7 := fillna_col d6 "Lead_Officer"
      finish_load (add_officer_count d7)

/-! ### Dropdown option queries (`safe_get_unique`, `update_officer_dropdown`) -/

/-- `Series.dropna().unique()`: distinct non-null values in
first-occurrence order. -/
def dropna_unique (vs : List Value) : List Value :=
  uniqueFirst (vs.filter (fun v => decide (¬ v = Value.null)))

/-- The values of one column of a frame. -/
def colVals (d : DataFrame) (c : String) : List Value :=
  d.rows.map (fun r => getVal r c)

/-- `safe_get_unique`: distinct non-null, truthy, non-`"nan"` values of a
column; `[]` when the column is absent. -/
def safe_get_unique (d : DataFrame) (c : String) : List Value :=
  if c ∈ d.cols then (dropna_unique (colVals d c)).filter valOk
  else []

/-- `update_officer_dropdown`: the officer option values offered for an
agency selection (the leading `'All Officers'` entry is not part of the
value list modelled here). -/
def update_officer_dropdown (d : DataFrame) (selected_agency : String) : List Value :=
  if selected_agency = "all" ∨ selected_agency = "" then
    safe_get_unique d "Lead_Officer"
  else if "Lead_Agency" ∈ d.cols ∧ "Lead_Officer" ∈ d.cols then
    (dropna_unique ((d.rows.filter
        (fun r => decide (getVal r "Lead_Agency" = Value.str selected_agency))).map
        (fun r => getVal r "Lead_Officer"))).filter valOk
  else []

/-! ### The filter cascade of `update_dashboard` -/

structure Selections where
  agency : String
  officer : String
  statute : String
  case_type : String
  gender : String
  race : String
  arrest : String
  sel790 : String
deriving DecidableEq, Repr

/-- The default selection set: every dropdown at its `'all'` value. -/
def allAll : Selections :=
  { agency := "all", officer := "all", statute := "all", case_type := "all",
    gender := "all", race := "all", arrest := "all", sel790 := "all" }

/-- One step
`if sel != 'all' and col in df.columns: filtered = filtered[filtered[col] == sel]`
of the cascade; `cols` is the column list of the full frame `df`. -/
def filterStep (cols : List String) (fd : DataFrame) (sel col : String) : DataFrame :=
  if ¬ sel = "all" ∧ col ∈ cols then
    { fd with rows := fd.rows.filter (fun r => decide (getVal r col = Value.str sel)) }
  else fd

/-- The `790-filter` step: `'yes'` keeps flagged rows, `'no'` keeps
unflagged rows, anything else is a no-op. -/
def filter790 (cols : List String) (fd : DataFrame) (sel : String) : DataFrame :=
  if sel = "yes" ∧ "Is_790_07" ∈ cols then
    { fd with rows := fd.rows.filter (fun r => decide (getVal r "Is_790_07" = Value.boolV true)) }
  else if sel = "no" ∧ "Is_790_07" ∈ cols then
    { fd with rows := fd.rows.filter (fun r => decide (getVal r "Is_790_07" = Value.boolV false)) }
  else fd

/-- The filtering prefix of `update_dashboard`: the eight filter steps
applied in source order to a copy of the frame. -/
def applyFilters (d : DataFrame) (s : Selections) : DataFrame :=
  let f := filterStep d.cols d s.agency "Lead_Agency"
  let f := filterStep d.cols f s.officer "Lead_Officer"
  let f := filterStep d.cols f s.statute "Statute_Description"
  let f := filterStep d.cols f s.case_type "Statute_CaseType"
  let f := filterStep d.cols f s.gender "Gender"
  let f := filterStep d.cols f s.race "Race_Tier_1"
  let f := filterStep d.cols f s.arrest "Arrest_vs_NonArrest"
  filter790 d.cols f s.sel790

/-! ### Aggregate views of `update_dashboard` -/

/-- `Series.value_counts()` before sorting: one `(value, count)` pair per
distinct non-null value, in first-occurrence order. -/
def freq_pairs (vs : List Value) : List (Value × Nat) :=
  let nn := vs.filter (fun v => decide (¬ v = Value.null))
  (uniqueFirst nn).map (fun v => (v, nn.countP (fun x => decide (x = v))))

/-- `Series.value_counts()`: the frequency pairs sorted by count
descending, ties kept in first-occurrence order. -/
def value_counts (vs : List Value) : List (Value × Nat) :=
  sortBy (fun a b => decide (b.2 ≤ a.2)) (freq_pairs vs)

/-- `groupby(c).size()`: sizes of the groups of distinct non-null keys,
keys sorted ascending. -/
def groupby_size (vs : List Value) : List (Value × Nat) :=
  let nn := vs.filter (fun v => decide (¬ v = Value.null))
  (sortBy valueLe (uniqueFirst nn)).map (fun v => (v, nn.countP (fun x => decide (x = v))))

/-- `groupby([a, b]).size()` on pairs of values; rows with a null in
either key column are dropped. -/
def groupby_size_pairs (ps : List (Value × Value)) : List ((Value × Value) × Nat) :=
  let ok := ps.filter (fun p => decide (¬ p.1 = Value.null ∧ ¬ p.2 = Value.null))
  (sortBy pairLe (uniqueFirst ok)).map (fun k => (k, ok.countP (fun x => decide (x = k))))

/-- A rendered figure.  A `placeholder` is a figure carrying only a title
(`px.bar(title=...)` and friends), used for the "no data" outcomes. -/
inductive Fig where
  | bar (title : String) (data : List (Value × Nat))
  | pie (title : String) (data : List (Value × Nat))
  | line (title : String) (data : List (Value × Nat))
  | hist (title : String) (data : List Value)
  | barPairs (title : String) (data : List ((Value × Value) × Nat))
  | placeholder (title : String)
deriving DecidableEq, Repr

def Fig.isPlaceholder : Fig → Bool
  | Fig.placeholder _ => true
  | _ => false

/-- The Officer Performance chart block. -/
def officer_chart (d : DataFrame) : Fig :=
  if "Lead_Officer" ∈ d.cols ∧ ¬ d.rows = [] then
    let counts := (value_counts (colVals d "Lead_Officer")).take 15
    if ¬ counts = [] then Fig.bar "Top 15 Officers by Case Volume" counts
    else Fig.placeholder "Officer Performance (No data)"
  else Fig.placeholder "Officer Performance (No data available)"

/-- The Statute Breakdown chart block. -/
def statute_chart (d : DataFrame) : Fig :=
  if "Statute_Description" ∈ d.cols ∧ ¬ d.rows = [] then
    let counts := (value_counts (colVals d "Statute_Description")).take 10
    if ¬ counts = [] then Fig.pie "Statute Distribution" counts
    else Fig.placeholder "Statute Distribution (No data)"
  else Fig.placeholder "Statute Distribution (No data available)"

/-- The Demographics chart block. -/
def demographics_chart (d : DataFrame) : Fig :=
  if "Race_Tier_1" ∈ d.cols ∧ "Gender" ∈ d.cols ∧ ¬ d.rows = [] then
    let demo := groupby_size_pairs (d.rows.map (fun r =>
      (getVal r "Race_Tier_1", getVal r "Gender")))
    if ¬ demo = [] then Fig.barPairs "Demographics: Race and Gender" demo
    else Fig.placeholder "Demographics (No data)"
  else Fig.placeholder "Demographics (No data available)"

/-- The statute-flagged subset `filtered_df[filtered_df['Is_790_07'] == True]`. -/
def df_790 (d : DataFrame) : List Row :=
  d.rows.filter (fun r => decide (getVal r "Is_790_07" = Value.boolV true))

/-- The 790.07 Analysis chart block. -/
def analysis_chart_790 (d : DataFrame) : Fig :=
  if "Is_790_07" ∈ d.cols ∧ "Age_At_Offense" ∈ d.cols ∧ ¬ d.rows = [] then
    if ¬ df_790 d = [] then
      Fig.hist "Age Distribution for 790.07 Cases"
        ((df_790 d).map (fun r => getVal r "Age_At_Offense"))
    else Fig.placeholder "790.07 Analysis (No 790.07 cases found)"
  else Fig.placeholder "790.07 Analysis (No data available)"

/-- The Case Type chart block (full `value_counts`, no truncation). -/
def case_type_chart (d : DataFrame) : Fig :=
  if "Statute_CaseType" ∈ d.cols ∧ ¬ d.rows = [] then
    let counts := value_counts (colVals d "Statute_CaseType")
    if ¬ counts = [] then Fig.pie "Case Type Distribution" counts
    else Fig.placeholder "Case Types (No data)"
  else Fig.placeholder "Case Types (No data available)"

/-- The Timeline chart block: `groupby('YearMonth').size()` followed by
`sort_values('YearMonth')`. -/
def timeline_chart (d : DataFrame) : Fig :=
  if "YearMonth" ∈ d.cols ∧ ¬ d.rows = [] then
    let data := sortBy (fun a b => valueLe a.1 b.1) (groupby_size (colVals d "YearMonth"))
    if ¬ data = [] then Fig.line "Cases Over Time" data
    else Fig.placeholder "Timeline (No data)"
  else Fig.placeholder "Timeline (No data available)"

/-- The Agency chart block. -/
def agency_chart (d : DataFrame) : Fig :=
  if "Lead_Agency" ∈ d.cols ∧ ¬ d.rows = [] then
    let counts := (value_counts (colVals d "Lead_Agency")).take 10
    if ¬ counts = [] then Fig.bar "Top 10 Agencies by Case Volume" counts
    else Fig.placeholder "Agencies (No data)"
  else Fig.placeholder "Agencies (No data available)"

/-! ### The secondary-charges table (`groupby('CaseNumber').agg(...)`) -/

/-- The rows of one case-number group. -/
def group_rows (rows : List Row) (k : Value) : List Row :=
  rows.filter (fun r => decide (getVal r "CaseNumber" = k))

/-- The distinct non-null group keys, sorted ascending
(`groupby` drops null keys and sorts by default). -/
def group_keys (rows : List Row) : List Value :=
  sortBy valueLe (uniqueFirst ((rows.map (fun r => getVal r "CaseNumber")).filter
    (fun v => decide (¬ v = Value.null))))

/-- A cell value that Python's `str.join` accepts: a string. -/
def isStrVal : Value → Bool
  | Value.str _ => true
  | _ => false

/-- The underlying strings of a list of values; `none` (a Python
`TypeError`) as soon as one value is not a string. -/
def strsOf : List Value → Option (List String)
  | [] => some []
  | Value.str s :: vs => (strsOf vs).map (fun ss => s :: ss)
  | _ => none

/-- `lambda x: ', '.join(x.unique())`: the distinct values of a column
within one group, in first-occurrence order, joined with `", "`; raises
`TypeError` (modelled as `none`) when one of the values to be joined is
not a string (for example `NaN`). -/
def join_unique (vals : List Value) : Option String :=
  (strsOf (uniqueFirst vals)).map (String.intercalate ", ")

/-- `agg('first')`: the first non-null value of a column within a group. -/
def agg_first (g : List Row) (c : String) : Value :=
  match g.find? (fun r => decide (¬ getVal r c = Value.null)) with
  | some r => getVal r c
  | none => Value.null

/-- The values of one column over one group. -/
def group_vals (rows : List Row) (k : Value) (c : String) : List Value :=
  (group_rows rows k).map (fun r => getVal r c)

/-- One output row of `df_790.groupby('CaseNumber').agg({...}).reset_index()`;
`none` propagates a `TypeError` raised by one of the two joins. -/
def case_group_row (rows : List Row) (k : Value) : Option Row :=
  match join_unique (group_vals rows k "ChargeOffenseDescription"),
        join_unique (group_vals rows k "Statute_Description") with
  | some c1, some c2 =>
    some [("CaseNumber", k),
          ("ChargeOffenseDescription", Value.str c1),
          ("Statute_Description", Value.str c2),
          ("Lead_Officer", agg_first (group_rows rows k) "Lead_Officer"),
          ("Age_At_Offense", agg_first (group_rows rows k) "Age_At_Offense"),
          ("Gender", agg_first (group_rows rows k) "Gender"),
          ("Race_Tier_1", agg_first (group_rows rows k) "Race_Tier_1")]
  | _, _ => none

/-- The columns named by the `agg` dictionary. -/
def agg_columns : List String :=
  ["ChargeOffenseDescription", "Statute_Description", "Lead_Officer",
   "Age_At_Offense", "Gender", "Race_Tier_1"]

/-- The per-key aggregation rows; a failing key aborts the whole
aggregation (the exception propagates out of `agg`). -/
def case_groups_rows (rows : List Row) : List Value → Option (List Row)
  | [] => some []
  | k :: ks =>
    match case_group_row rows k, case_groups_rows rows ks with
    | some r, some rs => some (r :: rs)
    | _, _ => none

/-- The grouped multi-value aggregation `case_groups` of
`update_dashboard`.  `groupby('CaseNumber').agg({...})` raises a
`KeyError` (modelled as `none`) when the group-key column or a column
named by the `agg` dictionary is absent from the frame, and propagates a
`TypeError` from the joins; on success it yields one row per distinct
group key. -/
def case_groups (cols : List String) (rows : List Row) : Option (List Row) :=
  if "CaseNumber" ∈ cols ∧ (∀ c ∈ agg_columns, c ∈ cols) then
    case_groups_rows rows (group_keys rows)
  else none

/-- `secondary_data`: the first 50 aggregated rows; `[]` when the flag
column is absent, the filtered frame is empty, it has no flagged rows, or
the aggregation raises and the enclosing `except` leaves the table unset. -/
def secondary_charges_data (d : DataFrame) : List Row :=
  if "Is_790_07" ∈ d.cols ∧ ¬ d.rows = [] then
    if ¬ df_790 d = [] then
      match case_groups d.cols (df_790 d) with
      | some g => g.take 50
      | none => []
    else []
  else []

/-- `secondary_columns`: assigned together with `secondary_data` inside
the same `try`, so it too stays empty when the aggregation raises. -/
def secondary_cols_out (d : DataFrame) : List (String × String) :=
  if "Is_790_07" ∈ d.cols ∧ ¬ d.rows = [] then
    if ¬ df_790 d = [] then
      match case_groups d.cols (df_790 d) with
      | some _ =>
        [("Case Number", "CaseNumber"), ("Officer", "Lead_Officer"),
         ("All Charges", "ChargeOffenseDescription"), ("All Statutes", "Statute_Description"),
         ("Age", "Age_At_Offense"), ("Gender", "Gender"), ("Race", "Race_Tier_1")]
      | none => []
    else []
  else []

/-! ### The detailed cases table -/

def table_cols : List String :=
  ["CaseNumber", "Lead_Officer", "Lead_Agency", "Statute", "Statute_Description",
   "Statute_CaseType", "Gender", "Race_Tier_1", "Age_At_Offense", "FileDate", "City_Clean"]

/-- `table_data`: the first 100 filtered rows restricted to the available
display columns, or the one-cell message row. -/
def cases_table (d : DataFrame) : List Row :=
  let avail := table_cols.filter (fun c => decide (c ∈ d.cols))
  if ¬ avail = [] ∧ ¬ d.rows = [] then
    (d.rows.take 100).map (fun r => avail.map (fun c => (c, getVal r c)))
  else [[("Message", Value.str "No data available for table")]]

/-- All outputs of the `update_dashboard` callback. -/
structure DashboardOut where
  officer_performance : Fig
  statute_breakdown : Fig
  demographics : Fig
  analysis_790 : Fig
  case_type : Fig
  timeline : Fig
  agency : Fig
  secondary_data : List Row
  secondary_columns : List (String × String)
  cases : List Row
deriving DecidableEq, Repr

/-- `update_dashboard`: filter, then recompute every view. -/
def update_dashboard (d : DataFrame) (s : Selections) : DashboardOut :=
  let f := applyFilters d s
  ⟨officer_chart f, statute_chart f, demographics_chart f, analysis_chart_790 f,
   case_type_chart f, timeline_chart f, agency_chart f,
   secondary_charges_data f, secondary_cols_out f, cases_table f⟩

/-! ### Specification-side predicates -/

/-- Specification of one cascade step: a row passes when the selection is
`"all"`, the column is absent from the frame, or the cell equals the
selected value exactly. -/
def passStep (cols : List String) (sel col : String) : Row → Bool :=
  if ¬ sel = "all" ∧ col ∈ cols then
    fun r => decide (getVal r col = Value.str sel)
  else fun _ => true

/-- Specification of the `790-filter` step. -/
def pass790 (cols : List String) (sel : String) : Row → Bool :=
  if sel = "yes" ∧ "Is_790_07" ∈ cols then
    fun r => decide (getVal r "Is_790_07" = Value.boolV true)
  else if sel = "no" ∧ "Is_790_07" ∈ cols then
    fun r => decide (getVal r "Is_790_07" = Value.boolV false)
  else fun _ => true

/-- The conjunction of all eight filter conditions: a row survives the
cascade exactly when it passes every individual selection. -/
def matchesAll (cols : List String) (s : Selections) : Row → Bool :=
  fun r =>
    passStep cols s.agency "Lead_Agency" r &&
      (passStep cols s.officer "Lead_Officer" r &&
        (passStep cols s.statute "Statute_Description" r &&
          (passStep cols s.case_type "Statute_CaseType" r &&
            (passStep cols s.gender "Gender" r &&
              (passStep cols s.race "Race_Tier_1" r &&
                (passStep cols s.arrest "Arrest_vs_NonArrest" r &&
                  pass790 cols s.sel790 r))))))

/-- Modelled from the spec: literal (non-regex) substring containment,
the reading of `statute_flag` given in the specification. -/
def literalContains (pat : List Char) : List Char → Bool
  | [] => pat.isEmpty
  | c :: cs => pat.isPrefixOf (c :: cs) || literalContains pat cs

/-! ### Helper lemmas: first-occurrence de-duplication -/

theorem mem_uniqueFirstAux [DecidableEq α] (seen : List α) (l : List α) (x : α) :
    x ∈ uniqueFirstAux seen l ↔ x ∈ l ∧ x ∉ seen := by
  induction l generalizing seen with
  | nil => simp [uniqueFirstAux]
  | cons a l ih =>
    by_cases ha : a ∈ seen
    · rw [uniqueFirstAux, if_pos ha, ih]
      constructor
      · exact fun h => ⟨List.mem_cons_of_mem _ h.1, h.2⟩
      · rintro ⟨h, hs⟩
        rcases List.mem_cons.mp h with rfl | h
        · exact absurd ha hs
        · exact ⟨h, hs⟩
    · rw [uniqueFirstAux, if_neg ha, List.mem_cons, ih]
      constructor
      · rintro (rfl | ⟨h, hs⟩)
        · exact ⟨List.mem_cons_self _ _, ha⟩
        · exact ⟨List.mem_cons_of_mem _ h, fun hx => hs (List.mem_cons_of_mem _ hx)⟩
      · rintro ⟨h, hs⟩
        rcases List.mem_cons.mp h with rfl | h
        · exact Or.inl rfl
        · by_cases hxa : x = a
          · exact Or.inl hxa
          · refine Or.inr ⟨h, fun hx => ?_⟩
            rcases List.mem_cons.mp hx with rfl | hx
            · exact hxa rfl
            · exact hs hx

theorem mem_uniqueFirst [DecidableEq α] (l : List α) (x : α) :
    x ∈ uniqueFirst l ↔ x ∈ l := by
  simp [uniqueFirst, mem_uniqueFirstAux]

theorem nodup_uniqueFirstAux [DecidableEq α] (seen : List α) (l : List α) :
    (uniqueFirstAux seen l).Nodup := by
  induction l generalizing seen with
  | nil => simp [uniqueFirstAux]
  | cons a l ih =>
    by_cases ha : a ∈ seen
    · simpa [uniqueFirstAux, if_pos ha] using ih seen
    · rw [uniqueFirstAux, if_neg ha]
      refine List.Pairwise.cons ?_ (ih (a :: seen))
      intro b hb hab
      subst hab
      exact ((mem_uniqueFirstAux (a :: seen) l a).mp hb).2 (List.mem_cons_self a seen)

theorem nodup_uniqueFirst [DecidableEq α] (l : List α) : (uniqueFirst l).Nodup :=
  nodup_uniqueFirstAux [] l

theorem countP_add_of_pointwise (l : List α) (p q r : α → Bool)
    (h : ∀ x, (if r x then 1 else 0) = (if p x then 1 else 0) + (if q x then 1 else 0)) :
    l.countP r = l.countP p + l.countP q := by
  induction l with
  | nil => simp
  | cons a l ih => simp only [List.countP_cons, ih, h a]; omega

/-- Sum of the per-value counts over the first occurrences equals the
number of list elements not already seen. -/
theorem sum_counts_uniqueFirstAux [DecidableEq α] (l seen : List α) :
    ((uniqueFirstAux seen l).map (fun v => l.countP (fun x => decide (x = v)))).sum
      = l.countP (fun x => decide (x ∉ seen)) := by
  induction l generalizing seen with
  | nil => simp [uniqueFirstAux]
  | cons a l ih =>
    have hcount : ∀ v, v ≠ a →
        (a :: l).countP (fun x => decide (x = v)) = l.countP (fun x => decide (x = v)) := by
      intro v hv
      simp [List.countP_cons, Ne.symm hv]
    by_cases ha : a ∈ seen
    · rw [uniqueFirstAux, if_pos ha]
      have hmap : (uniqueFirstAux seen l).map
            (fun v => (a :: l).countP (fun x => decide (x = v)))
          = (uniqueFirstAux seen l).map (fun v => l.countP (fun x => decide (x = v))) := by
        refine List.map_congr_left (fun v hv => ?_)
        have hvm := (mem_uniqueFirstAux seen l v).mp hv
        exact hcount v (fun h => hvm.2 (h ▸ ha))
      rw [hmap, ih seen, List.countP_cons]
      simp [ha]
    · rw [uniqueFirstAux, if_neg ha]
      simp only [List.map_cons, List.sum_cons]
      have hmap : (uniqueFirstAux (a :: seen) l).map
            (fun v => (a :: l).countP (fun x => decide (x = v)))
          = (uniqueFirstAux (a :: seen) l).map (fun v => l.countP (fun x => decide (x = v))) := by
        refine List.map_congr_left (fun v hv => ?_)
        have hvm := (mem_uniqueFirstAux (a :: seen) l v).mp hv
        exact hcount v (fun h => hvm.2 (h ▸ List.mem_cons_self a seen))
      rw [hmap, ih (a :: seen)]
      have hsplit : l.countP (fun x => decide (x ∉ seen))
          = l.countP (fun x => decide (x = a)) + l.countP (fun x => decide (x ∉ a :: seen)) := by
        refine countP_add_of_pointwise l _ _ _ (fun x => ?_)
        by_cases hxa : x = a
        · subst hxa; simp [ha]
        · by_cases hxs : x ∈ seen <;> simp [hxa, hxs]
      rw [List.countP_cons, List.countP_cons, hsplit]
      simp only [decide_eq_true_eq, if_pos rfl]
      simp only [ha, not_false_iff, decide_eq_true_eq, if_pos]
      omega

theorem sum_counts_uniqueFirst [DecidableEq α] (l : List α) :
    ((uniqueFirst l).map (fun v => l.countP (fun x => decide (x = v)))).sum = l.length := by
  rw [uniqueFirst, sum_counts_uniqueFirstAux]
  rw [show (fun (x : α) => decide (x ∉ ([] : List α))) = fun _ => true by
    funext x; simp]
  simp [List.countP_true]

/-! ### Helper lemmas: the stable insertion sort -/

theorem insertBy_perm (le : α → α → Bool) (x : α) (l : List α) :
    (insertBy le x l).Perm (x :: l) := by
  induction l with
  | nil => exact List.Perm.refl _
  | cons y ys ih =>
    by_cases h : le x y
    · rw [insertBy, if_pos h]
    · rw [insertBy, if_neg h]
      exact (ih.cons y).trans (List.Perm.swap x y ys)

theorem sortBy_perm (le : α → α → Bool) (l : List α) : (sortBy le l).Perm l := by
  induction l with
  | nil => exact List.Perm.refl _
  | cons x xs ih => exact (insertBy_perm le x (sortBy le xs)).trans (ih.cons x)

theorem mem_sortBy (le : α → α → Bool) (l : List α) (x : α) :
    x ∈ sortBy le l ↔ x ∈ l :=
  (sortBy_perm le l).mem_iff

theorem nodup_sortBy (le : α → α → Bool) (l : List α) :
    (sortBy le l).Nodup ↔ l.Nodup :=
  (sortBy_perm le l).nodup_iff

/-! ### Helper lemmas: the filter cascade -/

theorem filter_then_filter (p q : α → Bool) (l : List α) :
    (l.filter p).filter q = l.filter (fun a => p a && q a) := by
  induction l with
  | nil => rfl
  | cons a l ih =>
    by_cases hp : p a <;> by_cases hq : q a <;> simp [List.filter_cons, hp, hq, ih]

theorem filterStep_rows (cols : List String) (fd : DataFrame) (sel col : String) :
    (filterStep cols fd sel col).rows = fd.rows.filter (passStep cols sel col) := by
  by_cases h : ¬ sel = "all" ∧ col ∈ cols
  · rw [filterStep, if_pos h, passStep, if_pos h]
  · rw [filterStep, if_neg h, passStep, if_neg h]
    simp

theorem filterStep_cols (cols : List String) (fd : DataFrame) (sel col : String) :
    (filterStep cols fd sel col).cols = fd.cols := by
  rw [filterStep]
  split <;> rfl

theorem filter790_rows (cols : List String) (fd : DataFrame) (sel : String) :
    (filter790 cols fd sel).rows = fd.rows.filter (pass790 cols sel) := by
  by_cases h1 : sel = "yes" ∧ "Is_790_07" ∈ cols
  · rw [filter790, if_pos h1, pass790, if_pos h1]
  · by_cases h2 : sel = "no" ∧ "Is_790_07" ∈ cols
    · rw [filter790, if_neg h1, if_pos h2, pass790, if_neg h1, if_pos h2]
    · rw [filter790, if_neg h1, if_neg h2, pass790, if_neg h1, if_neg h2]
      simp

theorem filter790_cols (cols : List String) (fd : DataFrame) (sel : String) :
    (filter790 cols fd sel).cols = fd.cols := by
  rw [filter790]
  split <;> first | rfl | (split <;> rfl)

theorem applyFilters_rows (d : DataFrame) (s : Selections) :
    (applyFilters d s).rows = d.rows.filter (matchesAll d.cols s) := by
  show (filter790 d.cols (filterStep d.cols (filterStep d.cols (filterStep d.cols
      (filterStep d.cols (filterStep d.cols (filterStep d.cols (filterStep d.cols d
      s.agency "Lead_Agency") s.officer "Lead_Officer") s.statute "Statute_Description")
      s.case_type "Statute_CaseType") s.gender "Gender") s.race "Race_Tier_1")
      s.arrest "Arrest_vs_NonArrest") s.sel790).rows = _
  rw [filter790_rows, filterStep_rows, filterStep_rows, filterStep_rows, filterStep_rows,
    filterStep_rows, filterStep_rows, filterStep_rows]
  rw [filter_then_filter, filter_then_filter, filter_then_filter, filter_then_filter,
    filter_then_filter, filter_then_filter, filter_then_filter]
  rfl

theorem applyFilters_cols (d : DataFrame) (s : Selections) :
    (applyFilters d s).cols = d.cols := by
  show (filter790 d.cols (filterStep d.cols (filterStep d.cols (filterStep d.cols
      (filterStep d.cols (filterStep d.cols (filterStep d.cols (filterStep d.cols d
      s.agency "Lead_Agency") s.officer "Lead_Officer") s.statute "Statute_Description")
      s.case_type "Statute_CaseType") s.gender "Gender") s.race "Race_Tier_1")
      s.arrest "Arrest_vs_NonArrest") s.sel790).cols = _
  rw [filter790_cols, filterStep_cols, filterStep_cols, filterStep_cols, filterStep_cols,
    filterStep_cols, filterStep_cols, filterStep_cols]

/-- Claim C1: the filter step keeps exactly the records passing every
individual selection — for each filter field with a non-`"all"` selection
whose column exists, the cell must equal the selected value exactly
(string equality, boolean equality for the flag filter), conjunctively;
a selection whose column is absent is a no-op; the result is a sublist of
the original record list (order preserved, no record duplicated), and the
column list is unchanged. -/
theorem c1_filter_characterization (d : DataFrame) (s : Selections) :
    (applyFilters d s).rows = d.rows.filter (matchesAll d.cols s) ∧
    (applyFilters d s).rows.Sublist d.rows ∧
    (applyFilters d s).cols = d.cols :=
  ⟨applyFilters_rows d s,
   (applyFilters_rows d s) ▸ List.filter_sublist d.rows,
   applyFilters_cols d s⟩

/-- Claim C2: the all-`"all"` selection set is an identity for the
filter step. -/
theorem c2_all_identity (d : DataFrame) : applyFilters d allAll = d := rfl

/-! ### Claim C3: cascaded officer options -/

/-- A frame in which the empty string occurs as an agency value. -/
def exDf3 : DataFrame :=
  { cols := ["Lead_Agency", "Lead_Officer"],
    rows := [[("Lead_Agency", Value.str ""), ("Lead_Officer", Value.str "OFFICER X")],
             [("Lead_Agency", Value.str "AGENCY B"), ("Lead_Officer", Value.str "OFFICER Y")]] }

/-- Claim C3 as stated is false: under the agency value `""` (which occurs
on a record of `exDf3`) the code treats the selection as falsy and offers
every officer, including `OFFICER Y`, who co-occurs with no record of
agency `""`. -/
theorem c3_counterexample :
    ("Lead_Agency" ∈ exDf3.cols ∧ "Lead_Officer" ∈ exDf3.cols) ∧
    (∃ r ∈ exDf3.rows, getVal r "Lead_Agency" = Value.str "") ∧
    Value.str "OFFICER Y" ∈ update_officer_dropdown exDf3 "" ∧
    (∀ r ∈ exDf3.rows,
      ¬ (getVal r "Lead_Agency" = Value.str "" ∧
         getVal r "Lead_Officer" = Value.str "OFFICER Y")) := by decide

/-- Claim C3 (amended): for a constraining agency value other than the
sentinel `"all"` and the falsy `""`, every offered officer co-occurs with
that agency on some record, and no offered value is null or empty. -/
theorem c3_cascade_cooccurrence (d : DataFrame) (a : String)
    (h1 : ¬ a = "all") (h2 : ¬ a = "")
    (h3 : "Lead_Agency" ∈ d.cols) (h4 : "Lead_Officer" ∈ d.cols) :
    ∀ v ∈ update_officer_dropdown d a,
      (∃ r ∈ d.rows, getVal r "Lead_Agency" = Value.str a ∧ getVal r "Lead_Officer" = v) ∧
      ¬ v = Value.null ∧ ¬ v = Value.str "" := by
  intro v hv
  rw [update_officer_dropdown, if_neg (by simp [h1, h2]), if_pos ⟨h3, h4⟩] at hv
  obtain ⟨hmem, hok⟩ := List.mem_filter.mp hv
  rw [dropna_unique, mem_uniqueFirst] at hmem
  obtain ⟨hmem2, hnn⟩ := List.mem_filter.mp hmem
  obtain ⟨r, hr, hrv⟩ := List.mem_map.mp hmem2
  obtain ⟨hrd, hra⟩ := List.mem_filter.mp hr
  refine ⟨⟨r, hrd, by simpa using hra, hrv⟩, by simpa using hnn, ?_⟩
  intro hveq
  rw [hveq] at hok
  simp [valOk, truthy] at hok

theorem c3_witness :
    (∃ r ∈ create_sample_data.rows,
        getVal r "Lead_Agency" = Value.str "ORLANDO POLICE DEPARTMENT" ∧
        getVal r "Lead_Officer" = Value.str "SMITH JOHN") ∧
    ¬ Value.str "SMITH JOHN" = Value.null ∧ ¬ Value.str "SMITH JOHN" = Value.str "" :=
  c3_cascade_cooccurrence create_sample_data "ORLANDO POLICE DEPARTMENT"
    (by decide) (by decide) (by decide) (by decide) (Value.str "SMITH JOHN") (by decide)

/-! ### Claim C4: empty filter results and "no data" views -/

/-- The seven string-valued filter fields of the dashboard. -/
inductive FilterField where
  | agency | officer | statute | case_type | gender | race | arrest
deriving DecidableEq, Repr

def FilterField.col : FilterField → String
  | FilterField.agency => "Lead_Agency"
  | FilterField.officer => "Lead_Officer"
  | FilterField.statute => "Statute_Description"
  | FilterField.case_type => "Statute_CaseType"
  | FilterField.gender => "Gender"
  | FilterField.race => "Race_Tier_1"
  | FilterField.arrest => "Arrest_vs_NonArrest"

def FilterField.sel : FilterField → Selections → String
  | FilterField.agency, s => s.agency
  | FilterField.officer, s => s.officer
  | FilterField.statute, s => s.statute
  | FilterField.case_type, s => s.case_type
  | FilterField.gender, s => s.gender
  | FilterField.race, s => s.race
  | FilterField.arrest, s => s.arrest

theorem passStep_false (cols : List String) (sel col : String) (r : Row)
    (h1 : ¬ sel = "all") (h2 : col ∈ cols) (h3 : ¬ getVal r col = Value.str sel) :
    passStep cols sel col r = false := by
  rw [passStep, if_pos ⟨h1, h2⟩]
  exact decide_eq_false h3

theorem matchesAll_false (cols : List String) (s : Selections) (r : Row) (f : FilterField)
    (hp : passStep cols (f.sel s) f.col r = false) :
    matchesAll cols s r = false := by
  cases f <;>
    simp only [FilterField.sel, FilterField.col] at hp <;>
    simp [matchesAll, hp]

theorem officer_chart_empty (d : DataFrame) (h : d.rows = []) :
    officer_chart d = Fig.placeholder "Officer Performance (No data available)" := by
  rw [officer_chart, if_neg (fun hc => hc.2 h)]

theorem statute_chart_empty (d : DataFrame) (h : d.rows = []) :
    statute_chart d = Fig.placeholder "Statute Distribution (No data available)" := by
  rw [statute_chart, if_neg (fun hc => hc.2 h)]

theorem demographics_chart_empty (d : DataFrame) (h : d.rows = []) :
    demographics_chart d = Fig.placeholder "Demographics (No data available)" := by
  rw [demographics_chart, if_neg (fun hc => hc.2.2 h)]

theorem analysis_chart_790_empty (d : DataFrame) (h : d.rows = []) :
    analysis_chart_790 d = Fig.placeholder "790.07 Analysis (No data available)" := by
  rw [analysis_chart_790, if_neg (fun hc => hc.2.2 h)]

theorem case_type_chart_empty (d : DataFrame) (h : d.rows = []) :
    case_type_chart d = Fig.placeholder "Case Types (No data available)" := by
  rw [case_type_chart, if_neg (fun hc => hc.2 h)]

theorem timeline_chart_empty (d : DataFrame) (h : d.rows = []) :
    timeline_chart d = Fig.placeholder "Timeline (No data available)" := by
  rw [timeline_chart, if_neg (fun hc => hc.2 h)]

theorem agency_chart_empty (d : DataFrame) (h : d.rows = []) :
    agency_chart d = Fig.placeholder "Agencies (No data available)" := by
  rw [agency_chart, if_neg (fun hc => hc.2 h)]

theorem secondary_data_empty (d : DataFrame) (h : d.rows = []) :
    secondary_charges_data d = [] := by
  rw [secondary_charges_data, if_neg (fun hc => hc.2 h)]

theorem secondary_cols_empty (d : DataFrame) (h : d.rows = []) :
    secondary_cols_out d = [] := by
  rw [secondary_cols_out, if_neg (fun hc => hc.2 h)]

theorem cases_table_empty (d : DataFrame) (h : d.rows = []) :
    cases_table d = [[("Message", Value.str "No data available for table")]] := by
  simp [cases_table, h]

/-- A frame without the `Lead_Agency` column. -/
def exDf4 : DataFrame :=
  { cols := ["CaseNumber"], rows := [[("CaseNumber", Value.str "C1")]] }

/-- The scenario selection: agency `"Orlando Police"`, everything else
`"all"`. -/
def orlandoSel : Selections := { allAll with agency := "Orlando Police" }

/-- Claim C4 as stated is false: on `exDf4` the chosen agency value occurs
on no record, yet the filter returns 1 record, not 0, because the
`Lead_Agency` column is absent and the filter step is skipped. -/
theorem c4_counterexample :
    (∀ r ∈ exDf4.rows, ¬ getVal r "Lead_Agency" = Value.str "Orlando Police") ∧
    (applyFilters exDf4 orlandoSel).rows.length = 1 := by decide

/-- Claim C4 (amended): when the selected filter field's column is present
and its chosen value occurs on no record, the filter yields zero records,
and every aggregate view of `update_dashboard` is the structurally valid
"no data" result (placeholder figures, empty secondary table, message
row), with no error. -/
theorem c4_empty_filter_no_data (d : DataFrame) (s : Selections) (f : FilterField)
    (h1 : ¬ f.sel s = "all") (h2 : f.col ∈ d.cols)
    (h3 : ∀ r ∈ d.rows, ¬ getVal r f.col = Value.str (f.sel s)) :
    (applyFilters d s).rows = [] ∧
    update_dashboard d s =
      ⟨Fig.placeholder "Officer Performance (No data available)",
       Fig.placeholder "Statute Distribution (No data available)",
       Fig.placeholder "Demographics (No data available)",
       Fig.placeholder "790.07 Analysis (No data available)",
       Fig.placeholder "Case Types (No data available)",
       Fig.placeholder "Timeline (No data available)",
       Fig.placeholder "Agencies (No data available)",
       [], [], [[("Message", Value.str "No data available for table")]]⟩ := by
  have hrows : (applyFilters d s).rows = [] := by
    rw [applyFilters_rows, List.filter_eq_nil_iff]
    intro r hr
    have hm := matchesAll_false d.cols s r f
      (passStep_false d.cols (f.sel s) f.col r h1 h2 (h3 r hr))
    simp [hm]
  refine ⟨hrows, ?_⟩
  simp only [update_dashboard]
  rw [officer_chart_empty _ hrows, statute_chart_empty _ hrows,
    demographics_chart_empty _ hrows, analysis_chart_790_empty _ hrows,
    case_type_chart_empty _ hrows, timeline_chart_empty _ hrows,
    agency_chart_empty _ hrows, secondary_data_empty _ hrows,
    secondary_cols_empty _ hrows, cases_table_empty _ hrows]

theorem c4_witness :
    (applyFilters create_sample_data orlandoSel).rows = [] ∧
    update_dashboard create_sample_data orlandoSel =
      ⟨Fig.placeholder "Officer Performance (No data available)",
       Fig.placeholder "Statute Distribution (No data available)",
       Fig.placeholder "Demographics (No data available)",
       Fig.placeholder "790.07 Analysis (No data available)",
       Fig.placeholder "Case Types (No data available)",
       Fig.placeholder "Timeline (No data available)",
       Fig.placeholder "Agencies (No data available)",
       [], [], [[("Message", Value.str "No data available for table")]]⟩ :=
  c4_empty_filter_no_data create_sample_data orlandoSel FilterField.agency
    (by decide) (by decide) (by decide)

/-! ### Claim C5: frequency counts sum to the non-null count -/

theorem value_counts_map_snd_sum (vs : List Value) :
    ((value_counts vs).map Prod.snd).sum
      = (vs.filter (fun v => decide (¬ v = Value.null))).length := by
  have hperm := (sortBy_perm (fun a b => decide (b.2 ≤ a.2)) (freq_pairs vs)).map Prod.snd
  rw [value_counts, hperm.sum_eq]
  simp only [freq_pairs, List.map_map]
  simpa [Function.comp] using
    sum_counts_uniqueFirst (vs.filter (fun v => decide (¬ v = Value.null)))

/-- Claim C5: for every frame and every field, the counts of the
`value_counts` frequency table sum to the number of non-null values of
that field; null values are excluded from the counts. -/
theorem c5_frequency_counts_sum (d : DataFrame) (field : String) :
    ((value_counts (colVals d field)).map Prod.snd).sum
      = ((colVals d field).filter (fun v => decide (¬ v = Value.null))).length :=
  value_counts_map_snd_sum (colVals d field)

/-! ### Claim C6: the statute flag -/

/-- Claim C6: the derived statute flag as implemented disagrees with
literal substring containment of `"790.07"`.  The source passes the
pattern to `str.contains` without `regex=False`, so the `.` matches any
character: the statute `"790A07"` is flagged although it does not contain
the literal pattern.  Both definitions agree that a null statute gives
`false`, not an error. -/
theorem c6_statute_flag_regex_vs_literal :
    str_contains_790_07 (Value.str "790A07") = true ∧
    literalContains "790.07".data "790A07".data = false ∧
    str_contains_790_07 (Value.str "790.07") = true ∧
    literalContains "790.07".data "790.07".data = true ∧
    str_contains_790_07 Value.null = false := by decide

/-! ### Claim C8: the sample case-type frequency table -/

/-- Claim C8: on the 5-record sample data with case types
`[Felony, Misdemeanor, Misdemeanor, Felony, Felony]`, the top two entries
of the case-type frequency table are `(Felony, 3)` and `(Misdemeanor, 2)`,
sorted by count descending. -/
theorem c8_case_type_top2 :
    (value_counts (colVals create_sample_data "Statute_CaseType")).take 2
      = [(Value.str "Felony", 3), (Value.str "Misdemeanor", 2)] := by decide

/-! ### Claim C9: the grouped multi-value aggregation -/

theorem mem_group_keys (rows : List Row) (k : Value) :
    k ∈ group_keys rows ↔
      (¬ k = Value.null ∧ ∃ r ∈ rows, getVal r "CaseNumber" = k) := by
  rw [group_keys, mem_sortBy, mem_uniqueFirst, List.mem_filter]
  simp only [List.mem_map, decide_eq_true_eq]
  tauto

theorem nodup_group_keys (rows : List Row) : (group_keys rows).Nodup :=
  (nodup_sortBy _ _).mpr (nodup_uniqueFirst _)

theorem strsOf_isSome (l : List Value) (h : ∀ v ∈ l, isStrVal v = true) :
    ∃ ss, strsOf l = some ss := by
  induction l with
  | nil => exact ⟨[], rfl⟩
  | cons v vs ih =>
    have hv := h v (List.mem_cons_self _ _)
    obtain ⟨ss, hss⟩ := ih (fun w hw => h w (List.mem_cons_of_mem _ hw))
    cases v with
    | str s => exact ⟨s :: ss, by simp [strsOf, hss]⟩
    | nat n => simp [isStrVal] at hv
    | boolV b => simp [isStrVal] at hv
    | date y m dd => simp [isStrVal] at hv
    | null => simp [isStrVal] at hv

theorem join_unique_isSome (vals : List Value) (h : ∀ v ∈ vals, isStrVal v = true) :
    ∃ s, join_unique vals = some s := by
  obtain ⟨ss, hss⟩ := strsOf_isSome (uniqueFirst vals)
    (fun v hv => h v ((mem_uniqueFirst vals v).mp hv))
  exact ⟨String.intercalate ", " ss, by rw [join_unique, hss]; rfl⟩

theorem case_group_row_eq (rows : List Row) (k : Value) (c1 c2 : String)
    (h1 : join_unique (group_vals rows k "ChargeOffenseDescription") = some c1)
    (h2 : join_unique (group_vals rows k "Statute_Description") = some c2) :
    case_group_row rows k =
      some [("CaseNumber", k),
            ("ChargeOffenseDescription", Value.str c1),
            ("Statute_Description", Value.str c2),
            ("Lead_Officer", agg_first (group_rows rows k) "Lead_Officer"),
            ("Age_At_Offense", agg_first (group_rows rows k) "Age_At_Offense"),
            ("Gender", agg_first (group_rows rows k) "Gender"),
            ("Race_Tier_1", agg_first (group_rows rows k) "Race_Tier_1")] := by
  rw [case_group_row, h1, h2]

theorem case_group_row_some_inv (rows : List Row) (k : Value) (r : Row)
    (h : case_group_row rows k = some r) :
    ∃ c1 c2,
      join_unique (group_vals rows k "ChargeOffenseDescription") = some c1 ∧
      join_unique (group_vals rows k "Statute_Description") = some c2 ∧
      r = [("CaseNumber", k),
           ("ChargeOffenseDescription", Value.str c1),
           ("Statute_Description", Value.str c2),
           ("Lead_Officer", agg_first (group_rows rows k) "Lead_Officer"),
           ("Age_At_Offense", agg_first (group_rows rows k) "Age_At_Offense"),
           ("Gender", agg_first (group_rows rows k) "Gender"),
           ("Race_Tier_1", agg_first (group_rows rows k) "Race_Tier_1")] := by
  cases h1 : join_unique (group_vals rows k "ChargeOffenseDescription") with
  | none => simp [case_group_row, h1] at h
  | some c1 =>
    cases h2 : join_unique (group_vals rows k "Statute_Description") with
    | none => simp [case_group_row, h1, h2] at h
    | some c2 =>
      rw [case_group_row_eq rows k c1 c2 h1 h2] at h
      exact ⟨c1, c2, rfl, rfl, (Option.some_inj.mp h).symm⟩

theorem case_groups_rows_map (rows : List Row) (ks : List Value)
    (h : ∀ k ∈ ks, case_group_row rows k = some ((case_group_row rows k).getD [])) :
    case_groups_rows rows ks
      = some (ks.map (fun k => (case_group_row rows k).getD [])) := by
  induction ks with
  | nil => rfl
  | cons k ks ih =>
    rw [case_groups_rows, h k (List.mem_cons_self _ _),
      ih (fun w hw => h w (List.mem_cons_of_mem _ hw))]
    rfl

/-- The success half of the aggregation: when every value of the two
joined columns over the given rows is a string, the per-key aggregation
succeeds and its output has one row per distinct non-null case number,
with the documented join structure. -/
theorem case_groups_rows_success (rows : List Row)
    (hs1 : ∀ r ∈ rows, isStrVal (getVal r "ChargeOffenseDescription") = true)
    (hs2 : ∀ r ∈ rows, isStrVal (getVal r "Statute_Description") = true) :
    ∃ out, case_groups_rows rows (group_keys rows) = some out ∧
      (out.map (fun r => getVal r "CaseNumber")).Nodup ∧
      (∀ k : Value, k ∈ out.map (fun r => getVal r "CaseNumber") ↔
        (¬ k = Value.null ∧ ∃ r ∈ rows, getVal r "CaseNumber" = k)) ∧
      (∀ g ∈ out,
        (∃ ss, strsOf (uniqueFirst (group_vals rows (getVal g "CaseNumber")
            "ChargeOffenseDescription")) = some ss ∧
          getVal g "ChargeOffenseDescription" =
            Value.str (String.intercalate ", " ss)) ∧
        (∃ ss, strsOf (uniqueFirst (group_vals rows (getVal g "CaseNumber")
            "Statute_Description")) = some ss ∧
          getVal g "Statute_Description" =
            Value.str (String.intercalate ", " ss))) := by
  have hstr : ∀ (c : String), (∀ r ∈ rows, isStrVal (getVal r c) = true) →
      ∀ k : Value, ∀ v ∈ group_vals rows k c, isStrVal v = true := by
    intro c hc k v hv
    obtain ⟨r, hr, rfl⟩ := List.mem_map.mp hv
    exact hc r (List.mem_filter.mp hr).1
  have hsome : ∀ k ∈ group_keys rows,
      case_group_row rows k = some ((case_group_row rows k).getD []) := by
    intro k _
    obtain ⟨c1, hc1⟩ := join_unique_isSome _ (hstr _ hs1 k)
    obtain ⟨c2, hc2⟩ := join_unique_isSome _ (hstr _ hs2 k)
    rw [case_group_row_eq rows k c1 c2 hc1 hc2]
    rfl
  have hkeys : (((group_keys rows).map
        (fun k => (case_group_row rows k).getD [])).map
        (fun r => getVal r "CaseNumber")) = group_keys rows := by
    rw [List.map_map]
    have hpt : ∀ k ∈ group_keys rows,
        ((fun r => getVal r "CaseNumber") ∘
          fun k => (case_group_row rows k).getD []) k = id k := by
      intro k hk
      obtain ⟨c1, c2, _, _, hr⟩ := case_group_row_some_inv rows k _ (hsome k hk)
      show getVal ((case_group_row rows k).getD []) "CaseNumber" = k
      rw [hr]
      rfl
    rw [List.map_congr_left hpt, List.map_id]
  refine ⟨(group_keys rows).map (fun k => (case_group_row rows k).getD []),
    case_groups_rows_map rows _ hsome, ?_, ?_, ?_⟩
  · rw [hkeys]
    exact nodup_group_keys rows
  · intro k
    rw [hkeys]
    exact mem_group_keys rows k
  · intro g hg
    obtain ⟨k, hk, rfl⟩ := List.mem_map.mp hg
    obtain ⟨c1, c2, h1, h2, hr⟩ := case_group_row_some_inv rows k _ (hsome k hk)
    rw [hr]
    rw [join_unique] at h1 h2
    obtain ⟨ss1, hss1, hcc1⟩ := Option.map_eq_some'.mp h1
    obtain ⟨ss2, hss2, hcc2⟩ := Option.map_eq_some'.mp h2
    exact ⟨⟨ss1, hss1, by rw [← hcc1]; rfl⟩, ⟨ss2, hss2, by rw [← hcc2]; rfl⟩⟩

/-- Claim C9 (amended): when the aggregation raises, the enclosing
`except` leaves the secondary table empty; when the group-key column and
every aggregated column are present and all values of the two joined
columns over the flagged records are strings, the aggregation succeeds
and produces one output row per distinct non-null case number, each value
field flattened to the distinct values of that group in first-occurrence
order, joined with `", "`. -/
theorem c9_grouped_concat (d : DataFrame) :
    (case_groups d.cols (df_790 d) = none → secondary_charges_data d = []) ∧
    (("CaseNumber" ∈ d.cols ∧ ∀ c ∈ agg_columns, c ∈ d.cols) →
      (∀ r ∈ df_790 d, isStrVal (getVal r "ChargeOffenseDescription") = true) →
      (∀ r ∈ df_790 d, isStrVal (getVal r "Statute_Description") = true) →
      ∃ out, case_groups d.cols (df_790 d) = some out ∧
        (out.map (fun r => getVal r "CaseNumber")).Nodup ∧
        (∀ k : Value, k ∈ out.map (fun r => getVal r "CaseNumber") ↔
          (¬ k = Value.null ∧ ∃ r ∈ df_790 d, getVal r "CaseNumber" = k)) ∧
        (∀ g ∈ out,
          (∃ ss, strsOf (uniqueFirst (group_vals (df_790 d) (getVal g "CaseNumber")
              "ChargeOffenseDescription")) = some ss ∧
            getVal g "ChargeOffenseDescription" =
              Value.str (String.intercalate ", " ss)) ∧
          (∃ ss, strsOf (uniqueFirst (group_vals (df_790 d) (getVal g "CaseNumber")
              "Statute_Description")) = some ss ∧
            getVal g "Statute_Description" =
              Value.str (String.intercalate ", " ss)))) := by
  constructor
  · intro h
    rw [secondary_charges_data]
    split
    · split
      · rw [h]
      · rfl
    · rfl
  · intro hcols hs1 hs2
    rw [case_groups, if_pos hcols]
    exact case_groups_rows_success (df_790 d) hs1 hs2

/-- A loadable CSV frame with a case number and a 790-matching statute
but no `ChargeOffenseDescription` column. -/
def c9Csv : DataFrame :=
  { cols := ["CaseNumber", "Statute"],
    rows := [[("CaseNumber", Value.str "A"), ("Statute", Value.str "790.07")]] }

/-- The frame the dashboard holds after loading `c9Csv`. -/
def c9ExMissing : DataFrame := load_data (CsvLoad.loaded c9Csv)

/-- Claim C9 as stated is false on a reachable frame: after loading
`c9Csv` there is a flagged record with the distinct non-null case number
`A`, yet `agg` raises a `KeyError` (the `ChargeOffenseDescription` column
named by the aggregation dict is absent) and the `except` leaves the
secondary table empty — zero output rows instead of one per group key. -/
theorem c9_counterexample :
    ¬ df_790 c9ExMissing = [] ∧
    (∃ r ∈ df_790 c9ExMissing, ¬ getVal r "CaseNumber" = Value.null) ∧
    ¬ "ChargeOffenseDescription" ∈ c9ExMissing.cols ∧
    case_groups c9ExMissing.cols (df_790 c9ExMissing) = none ∧
    secondary_charges_data c9ExMissing = [] ∧
    (update_dashboard c9ExMissing allAll).secondary_data = [] := by decide

/-- A small flagged frame with every aggregated column present: two
records of case `A` with distinct charges, one record of case `B`. -/
def c9Ex : DataFrame :=
  { cols := ["CaseNumber", "ChargeOffenseDescription", "Statute_Description",
             "Lead_Officer", "Age_At_Offense", "Gender", "Race_Tier_1", "Is_790_07"],
    rows :=
      [[("CaseNumber", Value.str "A"), ("ChargeOffenseDescription", Value.str "CHARGE 1"),
        ("Statute_Description", Value.str "S1"), ("Lead_Officer", Value.str "SMITH"),
        ("Is_790_07", Value.boolV true)],
       [("CaseNumber", Value.str "A"), ("ChargeOffenseDescription", Value.str "CHARGE 2"),
        ("Statute_Description", Value.str "S1"), ("Lead_Officer", Value.str "SMITH"),
        ("Is_790_07", Value.boolV true)],
       [("CaseNumber", Value.str "B"), ("ChargeOffenseDescription", Value.str "CHARGE 3"),
        ("Statute_Description", Value.str "S2"), ("Lead_Officer", Value.str "JONES"),
        ("Is_790_07", Value.boolV true)]] }

theorem c9_witness :
    secondary_charges_data c9ExMissing = [] ∧
    (∃ out, case_groups c9Ex.cols (df_790 c9Ex) = some out ∧
      (out.map (fun r => getVal r "CaseNumber")).Nodup ∧
      (∀ k : Value, k ∈ out.map (fun r => getVal r "CaseNumber") ↔
        (¬ k = Value.null ∧ ∃ r ∈ df_790 c9Ex, getVal r "CaseNumber" = k)) ∧
      (∀ g ∈ out,
        (∃ ss, strsOf (uniqueFirst (group_vals (df_790 c9Ex) (getVal g "CaseNumber")
            "ChargeOffenseDescription")) = some ss ∧
          getVal g "ChargeOffenseDescription" =
            Value.str (String.intercalate ", " ss)) ∧
        (∃ ss, strsOf (uniqueFirst (group_vals (df_790 c9Ex) (getVal g "CaseNumber")
            "Statute_Description")) = some ss ∧
          getVal g "Statute_Description" =
            Value.str (String.intercalate ", " ss)))) :=
  ⟨(c9_grouped_concat c9ExMissing).1 (by decide),
   (c9_grouped_concat c9Ex).2 (by decide) (by decide) (by decide)⟩

/-! ### Helper lemmas: the load pipeline -/

theorem strip_bom_cols (d : DataFrame) : (strip_bom d).cols = d.cols.map stripBomName := rfl

theorem strip_bom_len (d : DataFrame) : (strip_bom d).rows.length = d.rows.length := by
  simp [strip_bom]

theorem convert_date_cols (d : DataFrame) (c : String) : (convert_date d c).cols = d.cols := by
  rw [convert_date]
  split
  · split <;> rfl
  · rfl

theorem convert_date_len (d : DataFrame) (c : String) :
    (convert_date d c).rows.length = d.rows.length := by
  rw [convert_date]
  split
  · split
    · simp
    · rfl
  · rfl

theorem clean_col_cols (d : DataFrame) (c : String) : (clean_col d c).cols = d.cols := by
  rw [clean_col]
  split <;> rfl

theorem clean_col_len (d : DataFrame) (c : String) :
    (clean_col d c).rows.length = d.rows.length := by
  rw [clean_col]
  split
  · simp
  · rfl

theorem foldl_clean_col_cols (cs : List String) (d : DataFrame) :
    (cs.foldl clean_col d).cols = d.cols := by
  induction cs generalizing d with
  | nil => rfl
  | cons c cs ih => rw [List.foldl_cons, ih, clean_col_cols]

theorem foldl_clean_col_len (cs : List String) (d : DataFrame) :
    (cs.foldl clean_col d).rows.length = d.rows.length := by
  induction cs generalizing d with
  | nil => rfl
  | cons c cs ih => rw [List.foldl_cons, ih, clean_col_len]

theorem clean_text_cols_cols (d : DataFrame) : (clean_text_cols d).cols = d.cols :=
  foldl_clean_col_cols text_columns d

theorem clean_text_cols_len (d : DataFrame) :
    (clean_text_cols d).rows.length = d.rows.length :=
  foldl_clean_col_len text_columns d

theorem fillna_col_cols (d : DataFrame) (c : String) : (fillna_col d c).cols = d.cols := by
  rw [fillna_col]
  split <;> rfl

theorem fillna_col_len (d : DataFrame) (c : String) :
    (fillna_col d c).rows.length = d.rows.length := by
  rw [fillna_col]
  split
  · simp
  · rfl

theorem add_statute_flag_len (d : DataFrame) :
    (add_statute_flag d).rows.length = d.rows.length := by
  rw [add_statute_flag]
  split
  · simp [addCol, statute_flag_vals]
  · rfl

theorem add_statute_flag_cols_mono (d : DataFrame) (c : String) (h : c ∈ d.cols) :
    c ∈ (add_statute_flag d).cols := by
  rw [add_statute_flag]
  split
  · simp only [addCol]
    split
    · exact h
    · exact List.mem_append_left _ h
  · exact h

theorem add_statute_flag_cols_new (d : DataFrame) (c : String)
    (h : ¬ c ∈ d.cols) (hne : ¬ c = "Is_790_07") :
    ¬ c ∈ (add_statute_flag d).cols := by
  rw [add_statute_flag]
  split
  · simp only [addCol]
    split
    · exact h
    · simp [h, hne]
  · exact h

theorem add_officer_count_not_present (d : DataFrame) (h : ¬ "Lead_Officer" ∈ d.cols) :
    add_officer_count d = Except.ok d := by
  rw [add_officer_count, if_neg h]

theorem add_officer_count_fails (d : DataFrame)
    (h1 : "Lead_Officer" ∈ d.cols) (h2 : ¬ "CaseNumber" ∈ d.cols) :
    add_officer_count d = Except.error () := by
  rw [add_officer_count, if_pos h1, if_neg h2]

theorem load_data_loaded (d0 : DataFrame) (h : ¬ d0.rows.length = 0) :
    load_data (CsvLoad.loaded d0) =
      finish_load (add_officer_count (fillna_col (fillna_col (fillna_col (clean_text_cols
        (convert_date (convert_date (strip_bom d0) "FileDate") "OffenseDate"))
        "City_Clean") "Lead_Agency") "Lead_Officer")) := by
  simp only [load_data]
  rw [if_neg h]

theorem pipeline_cols (d0 : DataFrame) :
    (fillna_col (fillna_col (fillna_col (clean_text_cols (convert_date (convert_date
      (strip_bom d0) "FileDate") "OffenseDate")) "City_Clean") "Lead_Agency")
      "Lead_Officer").cols = d0.cols.map stripBomName := by
  rw [fillna_col_cols, fillna_col_cols, fillna_col_cols, clean_text_cols_cols,
    convert_date_cols, convert_date_cols, strip_bom_cols]

theorem pipeline_len (d0 : DataFrame) :
    (fillna_col (fillna_col (fillna_col (clean_text_cols (convert_date (convert_date
      (strip_bom d0) "FileDate") "OffenseDate")) "City_Clean") "Lead_Agency")
      "Lead_Officer").rows.length = d0.rows.length := by
  rw [fillna_col_len, fillna_col_len, fillna_col_len, clean_text_cols_len,
    convert_date_len, convert_date_len, strip_bom_len]

/-! ### Claim C7: failure policy of the derivation stage -/

/-- A frame on which the officer-count derivation raises: `Lead_Officer`
is present but `CaseNumber` is not. -/
def exDf7 : DataFrame :=
  { cols := ["Lead_Officer"], rows := [[("Lead_Officer", Value.str "SMITH")]] }

/-- Claim C7 as stated is false: on `exDf7` the officer-count derivation
fails, and instead of completing the load with that one derived field
absent, `load_data` abandons the input entirely and returns the 5-record
sample data — the raw `Lead_Officer` column of the input is not retained. -/
theorem c7_counterexample :
    "Lead_Officer" ∈ exDf7.cols ∧ ¬ "CaseNumber" ∈ exDf7.cols ∧
    exDf7.rows.length = 1 ∧
    load_data (CsvLoad.loaded exDf7) = create_sample_data ∧
    (load_data (CsvLoad.loaded exDf7)).rows.length = 5 := by decide

/-- Claim C7 (amended): a failure while computing a derived field aborts
the whole load and substitutes the built-in sample data; only when the
derived field's underlying source column is entirely missing does the load
complete gracefully, with the derived field absent and the raw columns and
record count of the dataset retained. -/
theorem c7_derivation_failure_policy (d0 : DataFrame) :
    (¬ d0.rows.length = 0 → "Lead_Officer" ∈ d0.cols.map stripBomName →
      ¬ "CaseNumber" ∈ d0.cols.map stripBomName →
      load_data (CsvLoad.loaded d0) = create_sample_data) ∧
    (¬ d0.rows.length = 0 → ¬ "Lead_Officer" ∈ d0.cols.map stripBomName →
      ¬ "Officer_Case_Count" ∈ d0.cols.map stripBomName →
      (load_data (CsvLoad.loaded d0)).rows.length = d0.rows.length ∧
      (∀ c ∈ d0.cols.map stripBomName, c ∈ (load_data (CsvLoad.loaded d0)).cols) ∧
      ¬ "Officer_Case_Count" ∈ (load_data (CsvLoad.loaded d0)).cols) := by
  constructor
  · intro h hLO hCN
    rw [load_data_loaded d0 h,
      add_officer_count_fails _ ((pipeline_cols d0).symm ▸ hLO)
        ((pipeline_cols d0).symm ▸ hCN)]
    rfl
  · intro h hLO hOCC
    rw [load_data_loaded d0 h,
      add_officer_count_not_present _ ((pipeline_cols d0).symm ▸ hLO)]
    show (add_statute_flag _).rows.length = _ ∧ _
    refine ⟨?_, ?_, ?_⟩
    · rw [add_statute_flag_len, pipeline_len]
    · intro c hc
      exact add_statute_flag_cols_mono _ c ((pipeline_cols d0).symm ▸ hc)
    · exact add_statute_flag_cols_new _ _ ((pipeline_cols d0).symm ▸ hOCC) (by decide)

/-- A frame with no `Lead_Officer` column: the load completes gracefully. -/
def exDf7b : DataFrame :=
  { cols := ["CaseNumber"], rows := [[("CaseNumber", Value.str "C1")]] }

theorem c7_witness :
    load_data (CsvLoad.loaded exDf7) = create_sample_data ∧
    ((load_data (CsvLoad.loaded exDf7b)).rows.length = exDf7b.rows.length ∧
     (∀ c ∈ exDf7b.cols.map stripBomName, c ∈ (load_data (CsvLoad.loaded exDf7b)).cols) ∧
     ¬ "Officer_Case_Count" ∈ (load_data (CsvLoad.loaded exDf7b)).cols) :=
  ⟨(c7_derivation_failure_policy exDf7).1 (by decide) (by decide) (by decide),
   (c7_derivation_failure_policy exDf7b).2 (by decide) (by decide) (by decide)⟩

/-! ### Claim C10: the sample-data fallback -/

/-- Claim C10 as stated is false in one respect: under the fallback the
790.07-focused aggregate view does report "no data" (the sample contains
no 790.07-flagged record), and the secondary-charges table is empty. -/
theorem c10_counterexample :
    load_data CsvLoad.missing = create_sample_data ∧
    (update_dashboard create_sample_data allAll).analysis_790 =
      Fig.placeholder "790.07 Analysis (No 790.07 cases found)" ∧
    (update_dashboard create_sample_data allAll).secondary_data = [] := by decide

/-- Claim C10 (amended): a missing CSV, a read failure, an empty file, or
an exception during derivation all silently substitute the fixed 5-record
sample dataset (case numbers SAMPLE001–SAMPLE005); every filter option
list and the officer, statute, demographics, case-type, timeline and
agency views are then computed from that sample data and show sample
content, while the 790.07-focused views, also computed from the sample,
correctly report that it contains no 790.07 cases. -/
theorem c10_sample_fallback :
    load_data CsvLoad.missing = create_sample_data ∧
    load_data CsvLoad.failure = create_sample_data ∧
    load_data (CsvLoad.loaded { cols := ["CaseNumber"], rows := [] }) = create_sample_data ∧
    load_data (CsvLoad.loaded exDf7) = create_sample_data ∧
    colVals create_sample_data "CaseNumber" =
      [Value.str "SAMPLE001", Value.str "SAMPLE002", Value.str "SAMPLE003",
       Value.str "SAMPLE004", Value.str "SAMPLE005"] ∧
    create_sample_data.rows.length = 5 ∧
    (¬ safe_get_unique create_sample_data "Lead_Agency" = []) ∧
    (¬ safe_get_unique create_sample_data "Lead_Officer" = []) ∧
    (¬ safe_get_unique create_sample_data "Statute_Description" = []) ∧
    (¬ safe_get_unique create_sample_data "Statute_CaseType" = []) ∧
    (¬ safe_get_unique create_sample_data "Gender" = []) ∧
    (¬ safe_get_unique create_sample_data "Race_Tier_1" = []) ∧
    (¬ safe_get_unique create_sample_data "Arrest_vs_NonArrest" = []) ∧
    (update_dashboard create_sample_data allAll).officer_performance.isPlaceholder = false ∧
    (update_dashboard create_sample_data allAll).statute_breakdown.isPlaceholder = false ∧
    (update_dashboard create_sample_data allAll).demographics.isPlaceholder = false ∧
    (update_dashboard create_sample_data allAll).case_type.isPlaceholder = false ∧
    (update_dashboard create_sample_data allAll).timeline.isPlaceholder = false ∧
    (update_dashboard create_sample_data allAll).agency.isPlaceholder = false ∧
    (update_dashboard create_sample_data allAll).analysis_790 =
      Fig.placeholder "790.07 Analysis (No 790.07 cases found)" := by decide
